import Mathlib

/-!
Verification of the collaborative-canvas room synchronization engine.

This development is a shallow embedding of the server endpoint
`src/app/api/ws/route-redis.ts` (the POST drawing-event handler, the GET
join path and its stream-cancel cleanup) together with the small part of
the client reducer `src/hooks/use-collaborative-canvas.ts` that handles
`stroke_update` messages.

JavaScript numbers that matter to the properties (stroke width, cursor
coordinates) are modelled by `JsNum`, a rational number extended with
`nan` and the two infinities, so that JS truthiness (`width || 4`) and
`Math.min` / `Math.max` semantics can be stated exactly.  JS `Map`s are
modelled as association lists with insertion-order-preserving `mapSet`
(replace first occurrence, append when absent), matching `Map.set`,
`Map.get`, `Map.delete` and `Map.size` on maps with unique keys.  The
Redis store is an association list from room id to room state; `setEx`
is `mapSet` (the 24-hour TTL is not modelled, only the fact that the
value is stored rather than deleted).  Nondeterministic environment
inputs (`Date.now()`, `generateId()`, `getRandomUserColor()`) are passed
as explicit arguments.
-/

namespace Canvas

/-- A JavaScript number: rational, NaN, or an infinity. -/
inductive JsNum where
  | nan : JsNum
  | posInf : JsNum
  | negInf : JsNum
  | num : ℚ → JsNum
deriving DecidableEq

/-- `Point` from `lib/drawing-types.ts`: x, y, optional pressure. -/
structure Point where
  x : JsNum
  y : JsNum
  pressure : Option JsNum := none
deriving DecidableEq

/-- `ToolType` from `lib/drawing-types.ts`. -/
inductive Tool where
  | brush | eraser | line | rectangle | circle | fill
deriving DecidableEq

/-- `Stroke` from `lib/drawing-types.ts`. -/
structure Stroke where
  id : String
  userId : String
  points : List Point
  color : String
  width : JsNum
  tool : Tool
  timestamp : Nat
  startPoint : Option Point := none
  endPoint : Option Point := none
  filled : Option Bool := none
deriving DecidableEq

/-- The `type` field of an `Operation`. -/
inductive OpType where
  | stroke_add | stroke_remove | clear
deriving DecidableEq

/-- `Operation` from `lib/drawing-types.ts`. -/
structure Operation where
  id : String
  type : OpType
  stroke : Option Stroke := none
  affectedStrokeIds : Option (List String) := none
  userId : String
  userName : String
  timestamp : Nat
deriving DecidableEq

/-- `User` from `lib/drawing-types.ts`. -/
structure User where
  id : String
  name : String
  color : String
  joinedAt : Nat
  isOnline : Bool
deriving DecidableEq

/-- `UserCursor` from `lib/drawing-types.ts`. -/
structure UserCursor where
  userId : String
  x : JsNum
  y : JsNum
  color : String
  name : String
  isDrawing : Bool
  lastUpdate : Nat
deriving DecidableEq

/-- JS `Map.get`: value at the first entry with the given key. -/
def mapGet {α : Type} : List (String × α) → String → Option α
  | [], _ => none
  | (k', v) :: rest, k => if k' = k then some v else mapGet rest k

/-- JS `Map.set`: replace the first entry with the key in place, or append. -/
def mapSet {α : Type} : List (String × α) → String → α → List (String × α)
  | [], k, v => [(k, v)]
  | (k', v') :: rest, k, v =>
      if k' = k then (k, v) :: rest else (k', v') :: mapSet rest k v

/-- JS `Map.delete`: drop the entries with the given key. -/
def mapDelete {α : Type} : List (String × α) → String → List (String × α)
  | [], _ => []
  | (k', v') :: rest, k =>
      if k' = k then mapDelete rest k else (k', v') :: mapDelete rest k

/-- `RoomState` from `route-redis.ts`. -/
structure RoomState where
  strokes : List Stroke
  operations : List Operation
  redoStack : List Operation
  users : List (String × User)
  cursors : List (String × UserCursor)
deriving DecidableEq

/-- The default room returned by `getRoom` when nothing is stored. -/
def emptyRoom : RoomState :=
  { strokes := [], operations := [], redoStack := [], users := [], cursors := [] }

/-- The Redis store, keyed by room id (`room:` key prefixing elided). -/
abbrev Store := List (String × RoomState)

/-- `getRoom` from `route-redis.ts`: stored state or a fresh empty room. -/
def getRoom (store : Store) (roomId : String) : RoomState :=
  (mapGet store roomId).getD emptyRoom

/-- `saveRoom` from `route-redis.ts`: `redis.setEx` stores the state. -/
def saveRoom (store : Store) (roomId : String) (room : RoomState) : Store :=
  mapSet store roomId room

/-- JS `width || 4`: NaN, 0 and a missing value are falsy and default to 4. -/
def widthOrDefault : Option JsNum → JsNum
  | some (JsNum.num q) => if q = 0 then JsNum.num 4 else JsNum.num q
  | some JsNum.posInf => JsNum.posInf
  | some JsNum.negInf => JsNum.negInf
  | _ => JsNum.num 4

/-- JS `Math.min` on two arguments (NaN propagates). -/
def jsMin : JsNum → JsNum → JsNum
  | JsNum.nan, _ => JsNum.nan
  | _, JsNum.nan => JsNum.nan
  | JsNum.negInf, _ => JsNum.negInf
  | _, JsNum.negInf => JsNum.negInf
  | JsNum.posInf, b => b
  | a, JsNum.posInf => a
  | JsNum.num a, JsNum.num b => JsNum.num (min a b)

/-- JS `Math.max` on two arguments (NaN propagates). -/
def jsMax : JsNum → JsNum → JsNum
  | JsNum.nan, _ => JsNum.nan
  | _, JsNum.nan => JsNum.nan
  | JsNum.posInf, _ => JsNum.posInf
  | _, JsNum.posInf => JsNum.posInf
  | JsNum.negInf, b => b
  | a, JsNum.negInf => a
  | JsNum.num a, JsNum.num b => JsNum.num (max a b)

/-- `const validWidth = Math.max(1, Math.min(100, width || 4))`. -/
def validWidth (w : Option JsNum) : JsNum :=
  jsMax (JsNum.num 1) (jsMin (JsNum.num 100) (widthOrDefault w))

/-- Inbound POST payloads, one constructor per handled `case` of the
`switch` in `route-redis.ts` POST.  `stroke_update.points` is `none`
when the JSON value is not an array; `cursor_move` coordinates are
`none` when `typeof x !== 'number'`.  `other` stands for any message
type the switch does not handle (for example `save_session`). -/
inductive ClientPayload where
  | stroke_start (strokeId : String) (point : Point) (color : String)
      (width : Option JsNum) (tool : Tool)
  | stroke_update (strokeId : String) (points : Option (List Point))
      (endPoint : Option Point)
  | stroke_end (strokeId : String) (stroke : Stroke)
  | cursor_move (x y : Option JsNum) (isDrawing : Bool)
  | undo
  | redo
  | clear
  | notification (payload : String)
  | other
deriving DecidableEq

/-- Outbound broadcast payloads published on the room channel. -/
inductive ServerMsg where
  | stroke_start (stroke : Stroke)
  | stroke_update (strokeId : String) (points : List Point) (endPoint : Option Point)
  | stroke_end (strokeId : String) (stroke : Stroke) (operation : Operation)
      (canUndo canRedo : Bool)
  | cursor_move (userId : String) (x y : JsNum) (isDrawing : Bool)
      (color name : String)
  | undo (operation : Operation) (canUndo canRedo : Bool)
  | redo (operation : Operation) (canUndo canRedo : Bool)
  | clear
  | notification (payload : String)
  | user_joined (user : User)
  | user_left (userId : String)
  | sync_state (strokes : List Stroke) (users : List User)
      (cursors : List UserCursor) (yourUser : User)
      (operations : List Operation) (canUndo canRedo : Bool)
deriving DecidableEq

/-- The JSON result of the POST endpoint. -/
inductive PostResult where
  | ok
  | missingFields
  | userNotFound
  | invalidPoints
  | invalidCoordinates
deriving DecidableEq

/-- The body of the POST `switch` once the envelope was validated and the
user found, translated case by case from `route-redis.ts` lines 228-399.
Returns the room state after the case ran, the messages published by
`broadcastToRoom`, and the HTTP result. -/
def handleCase (room : RoomState) (userId : String) (user : User)
    (p : ClientPayload) (now : Nat) (freshId : String) :
    RoomState × List ServerMsg × PostResult :=
  match p with
  | ClientPayload.stroke_start strokeId point color width tool =>
      let newStroke : Stroke :=
        { id := strokeId, userId := userId, points := [point], color := color,
          width := validWidth width, tool := tool, timestamp := now,
          startPoint := some point }
      (room, [ServerMsg.stroke_start newStroke], PostResult.ok)
  | ClientPayload.stroke_update strokeId points endPoint =>
      match points with
      | none => (room, [], PostResult.invalidPoints)
      | some ps =>
          if ps.isEmpty then (room, [], PostResult.invalidPoints)
          else
            (room, [ServerMsg.stroke_update strokeId (ps.take 20) endPoint],
              PostResult.ok)
  | ClientPayload.stroke_end strokeId stroke =>
      let operation : Operation :=
        { id := freshId, type := OpType.stroke_add, stroke := some stroke,
          userId := userId, userName := user.name, timestamp := now }
      let room' : RoomState :=
        { room with
            strokes := room.strokes ++ [stroke],
            operations := room.operations ++ [operation],
            redoStack := [] }
      (room',
        [ServerMsg.stroke_end strokeId stroke operation true false],
        PostResult.ok)
  | ClientPayload.cursor_move x y isDrawing =>
      match x, y with
      | some xv, some yv =>
          let cursor : UserCursor :=
            { userId := userId, x := xv, y := yv, color := user.color,
              name := user.name, isDrawing := isDrawing, lastUpdate := now }
          ({ room with cursors := mapSet room.cursors userId cursor },
            [ServerMsg.cursor_move userId xv yv isDrawing user.color user.name],
            PostResult.ok)
      | _, _ => (room, [], PostResult.invalidCoordinates)
  | ClientPayload.undo =>
      match room.operations.getLast? with
      | some op =>
          let room' : RoomState :=
            { room with
                operations := room.operations.dropLast,
                redoStack := room.redoStack ++ [op] }
          (room',
            [ServerMsg.undo op (decide (0 < room'.operations.length)) true],
            PostResult.ok)
      | none => (room, [], PostResult.ok)
  | ClientPayload.redo =>
      match room.redoStack.getLast? with
      | some op =>
          let room' : RoomState :=
            { room with
                redoStack := room.redoStack.dropLast,
                operations := room.operations ++ [op] }
          (room',
            [ServerMsg.redo op true (decide (0 < room'.redoStack.length))],
            PostResult.ok)
      | none => (room, [], PostResult.ok)
  | ClientPayload.clear =>
      ({ room with strokes := [], operations := [], redoStack := [] },
        [ServerMsg.clear], PostResult.ok)
  | ClientPayload.notification payload =>
      (room, [ServerMsg.notification payload], PostResult.ok)
  | ClientPayload.other => (room, [], PostResult.ok)

/-- The POST endpoint of `route-redis.ts`: envelope check
(`!roomId || !userId || !type` with an empty string falsy), user lookup,
then the `switch`. -/
def handlePost (room : RoomState) (roomId userId : String)
    (p : ClientPayload) (now : Nat) (freshId : String) :
    RoomState × List ServerMsg × PostResult :=
  if roomId = "" ∨ userId = "" then (room, [], PostResult.missingFields)
  else
    match mapGet room.users userId with
    | none => (room, [], PostResult.userNotFound)
    | some user => handleCase room userId user p now freshId

/-- Result of the GET join path. -/
inductive JoinResult where
  | accepted (syncMsg : ServerMsg)
  | roomFull
deriving DecidableEq

/-- The GET join path of `route-redis.ts` lines 99-171: capacity check at
100 members, user creation, `saveRoom`, the initial `sync_state` message
enqueued to the new session, and the `user_joined` broadcast. -/
def handleJoin (store : Store) (roomId userName userId color : String)
    (now : Nat) : Store × List ServerMsg × JoinResult :=
  let room := getRoom store roomId
  if 100 ≤ room.users.length then (store, [], JoinResult.roomFull)
  else
    let user : User :=
      { id := userId, name := userName, color := color, joinedAt := now,
        isOnline := true }
    let room' : RoomState := { room with users := mapSet room.users userId user }
    let store' := saveRoom store roomId room'
    let syncMsg := ServerMsg.sync_state room'.strokes
      (room'.users.map (fun e => e.2)) (room'.cursors.map (fun e => e.2)) user
      room'.operations (decide (0 < room'.operations.length))
      (decide (0 < room'.redoStack.length))
    (store', [ServerMsg.user_joined user], JoinResult.accepted syncMsg)

/-- The stream `cancel` handler of `route-redis.ts` lines 174-192: on
disconnect the user and cursor entries are deleted and the room is saved
back to the store; a `user_left` message is broadcast. -/
def handleCancel (store : Store) (roomId userId : String) :
    Store × List ServerMsg :=
  let room := getRoom store roomId
  let room' : RoomState :=
    { room with
        users := mapDelete room.users userId,
        cursors := mapDelete room.cursors userId }
  (saveRoom store roomId room', [ServerMsg.user_left userId])

/-- The slice of the client reducer state touched by `stroke_update`
(`use-collaborative-canvas.ts`). -/
structure ClientState where
  strokes : List Stroke
  activeStrokes : List (String × Stroke)
deriving DecidableEq

/-- The `case 'stroke_update'` branch of `handleMessage` in
`use-collaborative-canvas.ts` lines 199-216: append the points to the
active stroke with that id, or leave the state unchanged when no active
stroke has the id (`endPoint || stroke.endPoint` keeps the old end point
when the message carries none). -/
def clientStrokeUpdate (cs : ClientState) (strokeId : String)
    (points : List Point) (endPoint : Option Point) : ClientState :=
  match mapGet cs.activeStrokes strokeId with
  | some stroke =>
      let stroke' : Stroke :=
        { stroke with
            points := stroke.points ++ points,
            endPoint := match endPoint with
              | some e => some e
              | none => stroke.endPoint }
      { cs with activeStrokes := mapSet cs.activeStrokes strokeId stroke' }
  | none => cs

/-- The per-claim width the amended C9 states: the JS fallback `|| 4`
for falsy widths (absent, NaN, 0), then a clamp into `[1, 100]`. -/
def amendedWidth : Option JsNum → ℚ
  | some (JsNum.num q) => if q = 0 then 4 else max 1 (min 100 q)
  | some JsNum.posInf => 100
  | some JsNum.negInf => 1
  | _ => 4

/-- A broadcast message's `canUndo`/`canRedo` flags agree with the room
state `post` (the state at the moment the message was built): `canUndo`
iff the operation log is non-empty, `canRedo` iff the redo stack is
non-empty.  Messages that carry no flags satisfy this trivially. -/
def flagsOk (post : RoomState) : ServerMsg → Prop
  | ServerMsg.stroke_end _ _ _ cu cr =>
      cu = !post.operations.isEmpty ∧ cr = !post.redoStack.isEmpty
  | ServerMsg.undo _ cu cr =>
      cu = !post.operations.isEmpty ∧ cr = !post.redoStack.isEmpty
  | ServerMsg.redo _ cu cr =>
      cu = !post.operations.isEmpty ∧ cr = !post.redoStack.isEmpty
  | ServerMsg.sync_state _ _ _ _ _ cu cr =>
      cu = !post.operations.isEmpty ∧ cr = !post.redoStack.isEmpty
  | _ => True

/-- Concrete fixtures for counterexamples and witnesses. -/
def p1 : Point := { x := JsNum.num 1, y := JsNum.num 2 }

def u1 : User :=
  { id := "u", name := "Alice", color := "#FF6B6B", joinedAt := 0,
    isOnline := true }

def s1 : Stroke :=
  { id := "s1", userId := "u", points := [p1], color := "#000000",
    width := JsNum.num 4, tool := Tool.brush, timestamp := 1,
    startPoint := some p1 }

def s2 : Stroke :=
  { id := "s2", userId := "u", points := [p1], color := "#000000",
    width := JsNum.num 4, tool := Tool.brush, timestamp := 9,
    startPoint := some p1 }

def op1 : Operation :=
  { id := "o1", type := OpType.stroke_add, stroke := some s1,
    userId := "u", userName := "Alice", timestamp := 1 }

/-- A room where user `u` has committed stroke `s1`. -/
def room1 : RoomState :=
  { strokes := [s1], operations := [op1], redoStack := [],
    users := [("u", u1)], cursors := [] }

/-- A room whose redo stack holds the undone add of `s1`. -/
def room3 : RoomState :=
  { strokes := [], operations := [], redoStack := [op1],
    users := [("u", u1)], cursors := [] }

/-- `room1` with a pending redo entry. -/
def room4 : RoomState :=
  { strokes := [s1], operations := [op1], redoStack := [op1],
    users := [("u", u1)], cursors := [] }

/-- A room whose operation log already holds 500 operations, the cap the
repository documentation (`ARCHITECTURE.md`) promises. -/
def room500 : RoomState :=
  { strokes := [s1], operations := List.replicate 500 op1, redoStack := [],
    users := [("u", u1)], cursors := [] }

/-- A room with one member and no strokes. -/
def roomU : RoomState :=
  { strokes := [], operations := [], redoStack := [],
    users := [("u", u1)], cursors := [] }

/-- A store holding `room1` under room id `r`. -/
def store1 : Store := [("r", room1)]

/-- A client with no active strokes. -/
def cs0 : ClientState := { strokes := [], activeStrokes := [] }

theorem mapGet_mapSet_self {α : Type} (m : List (String × α)) (k : String)
    (v : α) : mapGet (mapSet m k v) k = some v := by
  induction m with
  | nil => simp [mapSet, mapGet]
  | cons hd tl ih =>
      obtain ⟨k', v'⟩ := hd
      by_cases h : k' = k
      · simp [mapSet, mapGet, h]
      · simp [mapSet, mapGet, h, ih]

theorem length_mapSet {α : Type} (m : List (String × α)) (k : String)
    (v : α) : (mapSet m k v).length =
      if (mapGet m k).isSome then m.length else m.length + 1 := by
  induction m with
  | nil => simp [mapSet, mapGet]
  | cons hd tl ih =>
      obtain ⟨k', v'⟩ := hd
      by_cases h : k' = k
      · simp [mapSet, mapGet, h]
      · by_cases hs : (mapGet tl k).isSome <;>
          simp [mapSet, mapGet, h, ih, hs]

theorem decide_pos_length {α : Type} (l : List α) :
    decide (0 < l.length) = !l.isEmpty := by
  cases l <;> simp

theorem isEmpty_append_singleton {α : Type} (l : List α) (x : α) :
    (l ++ [x]).isEmpty = false := by
  cases l <;> rfl

theorem decide_one_lt_length {α : Type} (l : List α) :
    decide (1 < l.length) = !l.dropLast.isEmpty := by
  cases l with
  | nil => rfl
  | cons a as =>
      cases as with
      | nil => rfl
      | cons b bs =>
          simp [List.dropLast]

/-- C1: the code_bug evaluation.  In `room1` (one committed stroke `s1`,
operation log `[op1]` with the stroke-add at the tail), processing an
undo pops `op1` onto the redo stack but leaves the canonical strokes
list at `[s1]`: the matching stroke is never removed, so the strokes do
not return to their pre-add value `[]`. -/
theorem undo_does_not_remove_stroke :
    (handlePost room1 "r" "u" ClientPayload.undo 2 "o2").1 =
      { strokes := [s1], operations := [], redoStack := [op1],
        users := [("u", u1)], cursors := [] } ∧
    (handlePost room1 "r" "u" ClientPayload.undo 2 "o2").1.strokes = [s1] := by
  decide

/-- C2: the code_bug evaluation.  Processing a clear in `room1` empties
strokes, the whole operation log and the redo stack; no `clear`
Operation carrying a snapshot is appended (the log is `[]`, not a
one-element list), so the immediately following undo is a silent no-op
(no broadcast) and leaves strokes at `[]` instead of restoring `[s1]`. -/
theorem clear_discards_history :
    (handlePost room1 "r" "u" ClientPayload.clear 2 "o2").1 =
      { strokes := [], operations := [], redoStack := [],
        users := [("u", u1)], cursors := [] } ∧
    (handlePost (handlePost room1 "r" "u" ClientPayload.clear 2 "o2").1
        "r" "u" ClientPayload.undo 3 "o3").1.strokes = [] ∧
    (handlePost (handlePost room1 "r" "u" ClientPayload.clear 2 "o2").1
        "r" "u" ClientPayload.undo 3 "o3").2.1 = [] := by
  decide

/-- C3: the code_bug evaluation.  In `room3` (empty canvas, redo stack
holding the undone add of `s1`), processing a redo moves the Operation
back onto the log but leaves canonical strokes at `[]`: the stroke is
never re-inserted, so the forward effect is not re-applied. -/
theorem redo_does_not_reinsert_stroke :
    (handlePost room3 "r" "u" ClientPayload.redo 2 "o2").1 =
      { strokes := [], operations := [op1], redoStack := [],
        users := [("u", u1)], cursors := [] } := by
  decide

set_option maxRecDepth 8000

/-- C5: the code_bug evaluation.  Starting from a room whose operation
log already holds the documented cap of 500 entries, an admitted
stroke_end grows the log to 501 entries: nothing is ever evicted, the
log is unbounded. -/
theorem operation_log_unbounded :
    ((handlePost room500 "r" "u" (ClientPayload.stroke_end "s2" s2) 9
        "o9").1.operations).length = 501 := by
  decide

set_option maxRecDepth 512

/-- C4: every admitted stroke_end (valid envelope, sender present in the
room) leaves the redo stack empty and broadcasts exactly one stroke_end
message whose `canRedo` flag is `false` (and `canUndo` is `true`),
whatever the prior room state — in particular one with a non-empty redo
stack. -/
theorem stroke_end_clears_redoStack
    (room : RoomState) (roomId userId strokeId : String) (stroke : Stroke)
    (now : Nat) (freshId : String) (user : User)
    (h1 : roomId ≠ "") (h2 : userId ≠ "")
    (hu : mapGet room.users userId = some user) :
    (handlePost room roomId userId (ClientPayload.stroke_end strokeId stroke)
        now freshId).1.redoStack = [] ∧
    (handlePost room roomId userId (ClientPayload.stroke_end strokeId stroke)
        now freshId).2.1 =
      [ServerMsg.stroke_end strokeId stroke
        { id := freshId, type := OpType.stroke_add, stroke := some stroke,
          affectedStrokeIds := none, userId := userId,
          userName := user.name, timestamp := now } true false] := by
  simp [handlePost, h1, h2, hu, handleCase]

/-- C4 witness: a concrete stroke_end in `room4`, whose redo stack is
non-empty beforehand. -/
theorem stroke_end_clears_redoStack_witness :
    (handlePost room4 "r" "u" (ClientPayload.stroke_end "s2" s2)
        3 "o2").1.redoStack = [] ∧
    (handlePost room4 "r" "u" (ClientPayload.stroke_end "s2" s2)
        3 "o2").2.1 =
      [ServerMsg.stroke_end "s2" s2
        { id := "o2", type := OpType.stroke_add, stroke := some s2,
          affectedStrokeIds := none, userId := "u",
          userName := u1.name, timestamp := 3 } true false] :=
  stroke_end_clears_redoStack room4 "r" "u" "s2" s2 3 "o2" u1
    (by decide) (by decide) (by decide)

/-- C6 counterexample: a stroke_update whose strokeId (`ghost`) names no
stroke anywhere in the room is still published to the room channel — the
broadcast stream is affected, contrary to the claim. -/
theorem stroke_update_unknown_broadcasts :
    (handlePost roomU "r" "u"
        (ClientPayload.stroke_update "ghost" (some [p1]) none)
        0 "i").2.1 =
      [ServerMsg.stroke_update "ghost" [p1] none] := by
  decide

/-- C6 amended: a stroke_update never mutates server-side room state,
and a client receiving a stroke_update for an id with no active stroke
leaves its state unchanged (the silent no-op lives in the client
reducer); the server broadcast itself is not suppressed. -/
theorem stroke_update_frame_effect
    (room : RoomState) (roomId userId strokeId : String)
    (pts : Option (List Point)) (ep : Option Point) (now : Nat)
    (fid : String) (cs : ClientState) (ps : List Point)
    (hcs : mapGet cs.activeStrokes strokeId = none) :
    (handlePost room roomId userId
        (ClientPayload.stroke_update strokeId pts ep) now fid).1 = room ∧
    clientStrokeUpdate cs strokeId ps ep = cs := by
  constructor
  · by_cases hv : roomId = "" ∨ userId = ""
    · simp [handlePost, hv]
    · cases hg : mapGet room.users userId with
      | none => simp [handlePost, hv, hg]
      | some user =>
          cases pts with
          | none => simp [handlePost, hv, hg, handleCase]
          | some ps2 =>
              by_cases he : ps2.isEmpty <;>
                simp [handlePost, hv, hg, handleCase, he]
  · simp [clientStrokeUpdate, hcs]

/-- C6 witness: the amended statement at a concrete unknown stroke id. -/
theorem stroke_update_frame_effect_witness :
    (handlePost roomU "r" "u"
        (ClientPayload.stroke_update "ghost" (some [p1]) none)
        0 "i").1 = roomU ∧
    clientStrokeUpdate cs0 "ghost" [p1] none = cs0 :=
  stroke_update_frame_effect roomU "r" "u" "ghost" (some [p1]) none 0 "i"
    cs0 [p1] (by decide)

/-- C7 counterexample: when the only member of room `r` disconnects, the
cancel handler stores the room back (with an empty member set) instead
of deleting it: the canonical strokes, operation log and redo stack all
persist in the store. -/
theorem room_persists_after_last_leave :
    mapGet (handleCancel store1 "r" "u").1 "r" =
      some { strokes := [s1], operations := [op1], redoStack := [],
             users := [], cursors := [] } := by
  decide

/-- C7 amended: a disconnect removes the member's user and cursor
entries and saves the room back to the store with a 24-hour expiry
(`redis.setEx`); the room state persists after the member set becomes
empty — nothing is deleted — and a `user_left` message is broadcast. -/
theorem cancel_saves_room (store : Store) (roomId userId : String) :
    mapGet (handleCancel store roomId userId).1 roomId =
      some { getRoom store roomId with
               users := mapDelete (getRoom store roomId).users userId,
               cursors := mapDelete (getRoom store roomId).cursors userId } ∧
    (handleCancel store roomId userId).2 = [ServerMsg.user_left userId] :=
  ⟨mapGet_mapSet_self store roomId _, rfl⟩

/-- C8 counterexample: a join for a userId that is already a member of a
below-cap room is admitted but does not add a member — `Map.set`
replaces the existing entry, so the member count stays 1 where the
claim requires 2. -/
theorem rejoin_does_not_add_member :
    (getRoom (handleJoin store1 "r" "Bob" "u" "#45B7D1" 5).1 "r").users.length
      = 1 ∧
    (handleJoin store1 "r" "Bob" "u" "#45B7D1" 5).2.2 ≠ JoinResult.roomFull := by
  decide

/-- C8 amended: a join arriving when the member count has reached the
cap of 100 is rejected and leaves the store untouched (no Member or
Cursor entry for the attempt); a join below the cap upserts the Member
entry — the count grows by exactly one when the userId is fresh and is
unchanged when the userId is already a member — and never creates a
Cursor entry. -/
theorem join_cap_and_upsert (store : Store)
    (roomId userName userId color : String) (now : Nat) :
    (100 ≤ (getRoom store roomId).users.length →
      handleJoin store roomId userName userId color now =
        (store, [], JoinResult.roomFull)) ∧
    ((getRoom store roomId).users.length < 100 →
      (getRoom (handleJoin store roomId userName userId color now).1
          roomId).users.length =
        (if (mapGet (getRoom store roomId).users userId).isSome
         then (getRoom store roomId).users.length
         else (getRoom store roomId).users.length + 1) ∧
      (getRoom (handleJoin store roomId userName userId color now).1
          roomId).cursors = (getRoom store roomId).cursors) := by
  constructor
  · intro h
    unfold handleJoin
    rw [if_pos h]
  · intro h
    have hn : ¬ 100 ≤ (getRoom store roomId).users.length := by omega
    unfold handleJoin
    rw [if_neg hn]
    simp only [getRoom, saveRoom, mapGet_mapSet_self, Option.getD_some]
    exact ⟨length_mapSet _ _ _, trivial⟩

/-- C8 witness: joining a below-cap room with a fresh userId grows the
member count from 1 to 2. -/
theorem join_cap_and_upsert_witness :
    (getRoom (handleJoin store1 "r" "Bob" "v" "#45B7D1" 5).1 "r").users.length
      = 2 := by
  have h := ((join_cap_and_upsert store1 "r" "Bob" "v" "#45B7D1" 5).2
    (by decide)).1
  have h2 : (if (mapGet (getRoom store1 "r").users "v").isSome
      then (getRoom store1 "r").users.length
      else (getRoom store1 "r").users.length + 1) = 2 := by decide
  exact h.trans h2

theorem validWidth_eq_amended (w : Option JsNum) :
    validWidth w = JsNum.num (amendedWidth w) := by
  cases w with
  | none => decide
  | some v =>
      cases v with
      | nan => decide
      | posInf => decide
      | negInf => decide
      | num q =>
          by_cases h : q = 0
          · subst h; decide
          · show jsMax (JsNum.num 1)
                (jsMin (JsNum.num 100) (widthOrDefault (some (JsNum.num q)))) =
              JsNum.num (amendedWidth (some (JsNum.num q)))
            rw [widthOrDefault, if_neg h]
            show JsNum.num (max 1 (min 100 q)) =
              JsNum.num (amendedWidth (some (JsNum.num q)))
            rw [amendedWidth, if_neg h]

/-- C9 counterexample: a stroke_start with width 0 (numeric, below 1)
creates a stroke of width 4 — the JS `width || 4` default fires before
the clamp, so the width is not clamped to 1 as the claim requires; a
NaN width and non-finite coordinates are also accepted without any
ValidationError. -/
theorem zero_width_defaults_to_four :
    (handlePost roomU "r" "u"
        (ClientPayload.stroke_start "s9" p1 "#000000"
          (some (JsNum.num 0)) Tool.brush) 7 "i").2.1 =
      [ServerMsg.stroke_start
        { id := "s9", userId := "u", points := [p1], color := "#000000",
          width := JsNum.num 4, tool := Tool.brush, timestamp := 7,
          startPoint := some p1 }] ∧
    (handlePost roomU "r" "u"
        (ClientPayload.stroke_start "s9" p1 "#000000"
          (some JsNum.nan) Tool.brush) 7 "i").2.2 = PostResult.ok ∧
    (handlePost roomU "r" "u"
        (ClientPayload.stroke_start "s9"
          { x := JsNum.posInf, y := JsNum.nan } "#000000"
          (some (JsNum.num 5)) Tool.brush) 7 "i").2.2 = PostResult.ok := by
  decide

/-- C9 amended: an admitted stroke_start never fails validation — it
always succeeds, changes no room state, and broadcasts one stroke whose
width is 4 when the given width is falsy (absent, NaN or 0) and the
given width clamped into [1,100] otherwise (+∞ becomes 100, −∞ becomes
1); coordinates are never checked for finiteness. -/
theorem stroke_start_never_rejects
    (room : RoomState) (roomId userId strokeId : String) (pt : Point)
    (color : String) (w : Option JsNum) (tool : Tool) (now : Nat)
    (fid : String) (user : User)
    (h1 : roomId ≠ "") (h2 : userId ≠ "")
    (hu : mapGet room.users userId = some user) :
    (handlePost room roomId userId
        (ClientPayload.stroke_start strokeId pt color w tool)
        now fid).2.2 = PostResult.ok ∧
    (handlePost room roomId userId
        (ClientPayload.stroke_start strokeId pt color w tool)
        now fid).1 = room ∧
    (handlePost room roomId userId
        (ClientPayload.stroke_start strokeId pt color w tool)
        now fid).2.1 =
      [ServerMsg.stroke_start
        { id := strokeId, userId := userId, points := [pt], color := color,
          width := JsNum.num (amendedWidth w), tool := tool,
          timestamp := now, startPoint := some pt }] := by
  simp [handlePost, h1, h2, hu, handleCase, validWidth_eq_amended]

/-- C9 witness: a width of 250 is admitted and clamped. -/
theorem stroke_start_never_rejects_witness :
    (handlePost roomU "r" "u"
        (ClientPayload.stroke_start "s9" p1 "#000000"
          (some (JsNum.num 250)) Tool.brush) 7 "i").2.2 = PostResult.ok ∧
    (handlePost roomU "r" "u"
        (ClientPayload.stroke_start "s9" p1 "#000000"
          (some (JsNum.num 250)) Tool.brush) 7 "i").1 = roomU ∧
    (handlePost roomU "r" "u"
        (ClientPayload.stroke_start "s9" p1 "#000000"
          (some (JsNum.num 250)) Tool.brush) 7 "i").2.1 =
      [ServerMsg.stroke_start
        { id := "s9", userId := "u", points := [p1], color := "#000000",
          width := JsNum.num (amendedWidth (some (JsNum.num 250))),
          tool := Tool.brush, timestamp := 7, startPoint := some p1 }] :=
  stroke_start_never_rejects roomU "r" "u" "s9" p1 "#000000"
    (some (JsNum.num 250)) Tool.brush 7 "i" u1
    (by decide) (by decide) (by decide)

/-- C10: every broadcast that carries the `canUndo`/`canRedo` flags
(`stroke_end`, `undo`, `redo` from the POST handler and `sync_state`
from the join path) has `canUndo` iff the operation log is non-empty and
`canRedo` iff the redo stack is non-empty, evaluated on the room state
at the moment the message is built — the hardcoded `true`/`false`
constants included. -/
theorem flags_consistent :
    (∀ (room : RoomState) (roomId userId : String) (p : ClientPayload)
        (now : Nat) (fid : String) (m : ServerMsg),
      m ∈ (handlePost room roomId userId p now fid).2.1 →
        flagsOk (handlePost room roomId userId p now fid).1 m) ∧
    (∀ (store : Store) (roomId userName userId color : String) (now : Nat)
        (msg : ServerMsg),
      (handleJoin store roomId userName userId color now).2.2 =
          JoinResult.accepted msg →
        flagsOk
          (getRoom (handleJoin store roomId userName userId color now).1
            roomId) msg) := by
  constructor
  · intro room roomId userId p now fid m hm
    by_cases hv : roomId = "" ∨ userId = ""
    · simp [handlePost, hv] at hm
    · cases hg : mapGet room.users userId with
      | none => simp [handlePost, hv, hg] at hm
      | some user =>
          cases p with
          | stroke_start sid pt color w tool =>
              simp [handlePost, hv, hg, handleCase] at hm
              subst hm
              exact trivial
          | stroke_update sid pts ep =>
              cases pts with
              | none => simp [handlePost, hv, hg, handleCase] at hm
              | some ps2 =>
                  by_cases he : ps2.isEmpty
                  · simp [handlePost, hv, hg, handleCase, he] at hm
                  · simp [handlePost, hv, hg, handleCase, he] at hm
                    subst hm
                    exact trivial
          | stroke_end sid st =>
              simp [handlePost, hv, hg, handleCase] at hm
              subst hm
              simp [handlePost, hv, hg, handleCase, flagsOk,
                isEmpty_append_singleton]
          | cursor_move x y d =>
              cases x with
              | none => simp [handlePost, hv, hg, handleCase] at hm
              | some xv =>
                  cases y with
                  | none => simp [handlePost, hv, hg, handleCase] at hm
                  | some yv =>
                      simp [handlePost, hv, hg, handleCase] at hm
                      subst hm
                      exact trivial
          | undo =>
              cases hl : room.operations.getLast? with
              | none => simp [handlePost, hv, hg, handleCase, hl] at hm
              | some op =>
                  simp [handlePost, hv, hg, handleCase, hl] at hm
                  subst hm
                  simp [handlePost, hv, hg, handleCase, hl, flagsOk,
                    decide_pos_length, decide_one_lt_length,
                    isEmpty_append_singleton]
          | redo =>
              cases hl : room.redoStack.getLast? with
              | none => simp [handlePost, hv, hg, handleCase, hl] at hm
              | some op =>
                  simp [handlePost, hv, hg, handleCase, hl] at hm
                  subst hm
                  simp [handlePost, hv, hg, handleCase, hl, flagsOk,
                    decide_pos_length, decide_one_lt_length,
                    isEmpty_append_singleton]
          | clear =>
              simp [handlePost, hv, hg, handleCase] at hm
              subst hm
              exact trivial
          | notification pay =>
              simp [handlePost, hv, hg, handleCase] at hm
              subst hm
              exact trivial
          | other => simp [handlePost, hv, hg, handleCase] at hm
  · intro store roomId userName userId color now msg hmsg
    unfold handleJoin at hmsg ⊢
    by_cases h : 100 ≤ (getRoom store roomId).users.length
    · rw [if_pos h] at hmsg
      simp at hmsg
    · rw [if_neg h] at hmsg ⊢
      simp only [JoinResult.accepted.injEq] at hmsg
      subst hmsg
      simp [flagsOk, getRoom, saveRoom, mapGet_mapSet_self,
        decide_pos_length]

/-- C10 witness: the undo broadcast out of `room1` carries
`canUndo = false` (the log emptied) and `canRedo = true`. -/
theorem flags_consistent_witness :
    flagsOk (handlePost room1 "r" "u" ClientPayload.undo 2 "o2").1
      (ServerMsg.undo op1 false true) :=
  flags_consistent.1 room1 "r" "u" ClientPayload.undo 2 "o2"
    (ServerMsg.undo op1 false true) (by decide)

end Canvas
